import Mathlib

/-!
Verification of the text-generation provider and the `export_allow_partial`
migration of the banana-slides backend.

The embedding follows `backend/services/ai_providers/text/genai_provider.py`
and `backend/migrations/versions/012_add_export_allow_partial_to_projects.py`.
External libraries (the `google.genai` SDK, PIL, tenacity, alembic) are
modelled at the call boundary: the SDK client constructor and `Image.open`
become data-capturing functions, and the tenacity `retry` decorator with
`stop_after_attempt`, `wait_exponential`, `reraise=True` and `before_sleep`
is embedded as an explicit retry loop producing a trace of the attempts,
the backoff waits and the warning logs.
-/

namespace BananaSlides

/-! Process-wide configuration (`config.get_config()` is defined outside this
fragment; the provider reads the two fields below).  Python evaluates the
arguments of the `@retry(...)` decorators once, when the class body runs at
module import, so theorems take two snapshots of the configuration: the one
seen at import (decoration) time and the one seen at call time. -/

structure ProcessConfig where
  GENAI_MAX_RETRIES : Nat
  GENAI_TIMEOUT : ℚ
  deriving Repr, DecidableEq

/-- Source line `timeout_ms = int(get_config().GENAI_TIMEOUT * 1000)`;
Python `int()` truncates toward zero, which coincides with the floor for the
nonnegative timeouts in use. -/
def timeout_ms (cfg : ProcessConfig) : ℤ := Rat.floor (cfg.GENAI_TIMEOUT * 1000)

/-- Python truthiness of an optional string: `None` and the empty string are
falsy. -/
def pyStrTruthy : Option String → Bool
  | none => false
  | some s => !(s == "")

/-- Python `x or d` on an optional string. -/
def pyStrOr : Option String → String → String
  | none, d => d
  | some s, d => if s == "" then d else s

/-! The `google.genai` SDK boundary, modelled as data capturing exactly the
arguments the provider passes.  The SDK's own validation and its fallback to
ambient environment credentials live outside this repository. -/

structure HttpOptions where
  base_url : Option String
  timeout : ℤ
  deriving Repr, DecidableEq

/-- Arguments the provider passes to the external `genai.Client(...)`
constructor. -/
structure GenAIClientArgs where
  vertexai : Bool
  project : Option String
  location : Option String
  api_key : Option String
  http_options : HttpOptions
  deriving Repr, DecidableEq

structure GenAITextProvider where
  client : GenAIClientArgs
  model : String
  deriving Repr, DecidableEq

/-- `GenAITextProvider.__init__`.  The source performs no validation of its
own: it computes the timeout and calls `genai.Client` with either the
Vertex-AI argument set (`project=project_id`,
`location=location or 'us-central1'`) or the AI-Studio argument set
(`api_key=api_key`, with `base_url` only when `api_base` is truthy). -/
def GenAITextProvider.init (cfg : ProcessConfig)
    (api_key api_base : Option String) (model : String)
    (vertexai : Bool) (project_id location : Option String) :
    GenAITextProvider :=
  let tms := timeout_ms cfg
  if vertexai then
    { client :=
        { vertexai := true
          project := project_id
          location := some (pyStrOr location "us-central1")
          api_key := none
          http_options := { base_url := none, timeout := tms } }
      model := model }
  else
    let http_options : HttpOptions :=
      if pyStrTruthy api_base then { base_url := api_base, timeout := tms }
      else { base_url := none, timeout := tms }
    { client :=
        { vertexai := false
          project := none
          location := none
          api_key := api_key
          http_options := http_options }
      model := model }

/-! Exceptions that can cross the provider's call boundary.  `valueError` is
the `ValueError` raised by `_validate_response`; `imageLoadError` is the
exception `PIL.Image.open` raises on an undecodable payload;
`providerError` stands for any network or SDK failure of
`generate_content`. -/

inductive GenError where
  | providerError (msg : String)
  | valueError (msg : String)
  | imageLoadError (msg : String)
  deriving Repr, DecidableEq

def GenError.message : GenError → String
  | .providerError m => m
  | .valueError m => m
  | .imageLoadError m => m

/-! Responses of the SDK, as far as `_validate_response` inspects them. -/

structure Candidate where
  finish_reason : Option String
  safety_ratings : Option String
  deriving Repr, DecidableEq

structure GenAIResponse where
  text : Option String
  candidates : List Candidate
  deriving Repr, DecidableEq

/-- `_validate_response`: returns `response.text`, or raises
`ValueError("AI model returned empty response (response.text is None)")`
when the text is `None`, first logging the first candidate's finish reason
and safety ratings when they are present.  The result pairs the outcome with
the warning-log lines it emits. -/
def _validate_response (response : GenAIResponse) :
    Except GenError String × List String :=
  match response.text with
  | some t => (.ok t, [])
  | none =>
    let logs :=
      match response.candidates with
      | [] => []
      | candidate :: _ =>
        (match candidate.finish_reason with
         | some fr => ["Response text is None, finish_reason: " ++ fr]
         | none => []) ++
        (match candidate.safety_ratings with
         | some sr => ["Safety ratings: " ++ sr]
         | none => [])
    (.error (.valueError "AI model returned empty response (response.text is None)"),
     logs)

/-- `_log_retry`: the `before_sleep` warning.  It calls `get_config()` again
when it runs, so the total shown in the message uses the call-time
configuration. -/
def _log_retry (callCfg : ProcessConfig) (attempt_number : Nat) (e : GenError) :
    String :=
  "GenAI 请求失败，正在重试 (" ++ toString attempt_number ++ "/" ++
    toString (callCfg.GENAI_MAX_RETRIES + 1) ++ ")，错误: " ++ e.message

/-! The tenacity retry loop.  `wait_exponential(multiplier, min, max)` waits
`max(max(0, min), min(multiplier * 2 ^ attempt_number, max))` seconds after
the failing attempt; both decorators instantiate it as
`wait_exponential(multiplier=1, min=2, max=10)`. -/

def wait_exponential (multiplier mn mx attempt_number : Nat) : Nat :=
  max (max 0 mn) (min (multiplier * 2 ^ attempt_number) mx)

/-- The wait used by both generation decorators:
`wait_exponential(multiplier=1, min=2, max=10)`. -/
def genaiWait (attempt_number : Nat) : Nat :=
  wait_exponential 1 2 10 attempt_number

/-- Trace of one decorated call: the final outcome (`reraise=True` re-raises
the last exception unchanged), the number of the last attempt made, the
backoff waits slept between attempts, and the warning-log lines in order. -/
structure RetryTrace (ε α : Type) where
  result : Except ε α
  attempts : Nat
  waits : List Nat
  logs : List String
  deriving Repr

/-- The tenacity loop with `reraise=True`: run the body; on success stop; on
an exception, if no retries remain re-raise that exception, else log via
`before_sleep`, sleep the configured wait, and try again.  `attempt` is the
1-based attempt number, `remaining` the number of retries still allowed.
The body returns its outcome together with the log lines it emitted. -/
def retryGo (lr : Nat → ε → String) (wf : Nat → Nat)
    (body : Nat → Except ε α × List String) :
    Nat → Nat → RetryTrace ε α
  | attempt, 0 =>
    let res := body attempt
    match res.1 with
    | .ok v => { result := .ok v, attempts := attempt, waits := [], logs := res.2 }
    | .error e => { result := .error e, attempts := attempt, waits := [], logs := res.2 }
  | attempt, r + 1 =>
    let res := body attempt
    match res.1 with
    | .ok v => { result := .ok v, attempts := attempt, waits := [], logs := res.2 }
    | .error e =>
      let t := retryGo lr wf body (attempt + 1) r
      { result := t.result
        attempts := t.attempts
        waits := wf attempt :: t.waits
        logs := res.2 ++ (lr attempt e :: t.logs) }

/-- A decorated call under
`@retry(stop=stop_after_attempt(s), wait=wait_exponential(1, 2, 10),
reraise=True, before_sleep=_log_retry)`: attempts are numbered from 1 and
`stop_after_attempt s` allows at most `s` of them. -/
def genaiRetry (stopAfterAttempt : Nat) (callCfg : ProcessConfig)
    (body : Nat → Except GenError String × List String) :
    RetryTrace GenError String :=
  retryGo (fun n e => _log_retry callCfg n e) genaiWait body 1 (stopAfterAttempt - 1)

/-! The outbound request of `client.models.generate_content`. -/

structure ThinkingConfig where
  thinking_budget : Int
  deriving Repr, DecidableEq

structure GenerateContentConfig where
  thinking_config : Option ThinkingConfig
  deriving Repr, DecidableEq

/-- A decoded image, as handed to the SDK; PIL is external, so only the
path it was opened from is recorded. -/
structure PILImage where
  path : String
  deriving Repr, DecidableEq

inductive Contents where
  | textOnly (prompt : String)
  | multimodal (image : PILImage) (prompt : String)
  deriving Repr, DecidableEq

structure GenerateContentRequest where
  model : String
  contents : Contents
  config : Option GenerateContentConfig
  deriving Repr, DecidableEq

/-- The `config_params` construction shared by both operations: the
`thinking_config` entry is added only when `thinking_budget > 0`, and the
whole config argument is `None` when `config_params` stays empty. -/
def buildConfigParams (thinking_budget : Int) : Option GenerateContentConfig :=
  if thinking_budget > 0 then
    some { thinking_config := some { thinking_budget := thinking_budget } }
  else none

/-- The request `generate_text` sends: the configured model, the prompt as
sole content, and the optional thinking config. -/
def generate_text_request (self : GenAITextProvider) (prompt : String)
    (thinking_budget : Int) : GenerateContentRequest :=
  { model := self.model
    contents := .textOnly prompt
    config := buildConfigParams thinking_budget }

/-- The request `generate_with_image` sends: contents are the ordered pair
`[img, prompt]`. -/
def generate_with_image_request (self : GenAITextProvider) (img : PILImage)
    (prompt : String) (thinking_budget : Int) : GenerateContentRequest :=
  { model := self.model
    contents := .multimodal img prompt
    config := buildConfigParams thinking_budget }

/-- A provider behaviour at the SDK boundary: the outcome of
`client.models.generate_content` for a given request on a given attempt
(attempts are numbered from 1). -/
def ProviderBehaviour : Type :=
  GenerateContentRequest → Nat → Except GenError GenAIResponse

/-- The body of `generate_text` on one attempt: build the request, call the
provider, and validate the response. -/
def generate_text_body (provider : ProviderBehaviour)
    (self : GenAITextProvider) (prompt : String) (thinking_budget : Int)
    (attempt : Nat) : Except GenError String × List String :=
  match provider (generate_text_request self prompt thinking_budget) attempt with
  | .error e => (.error e, [])
  | .ok response => _validate_response response

/-- `generate_text`, decorated.  `importCfg` is the configuration snapshot
when the decorator's arguments were evaluated (module import); `callCfg`
the one `_log_retry` reads when it runs. -/
def generate_text (callCfg importCfg : ProcessConfig)
    (provider : ProviderBehaviour) (self : GenAITextProvider)
    (prompt : String) (thinking_budget : Int) : RetryTrace GenError String :=
  genaiRetry (importCfg.GENAI_MAX_RETRIES + 1) callCfg
    (generate_text_body provider self prompt thinking_budget)

/-- `PIL.Image.open(image_path)`, modelled at the boundary: the filesystem
`fs` yields the decoded image for paths holding a decodable payload and
nothing otherwise, in which case PIL raises (e.g.
`UnidentifiedImageError("cannot identify image file ...")`). -/
def pilImageOpen (fs : String → Option PILImage) (image_path : String) :
    Except GenError PILImage :=
  match fs image_path with
  | some img => .ok img
  | none => .error (.imageLoadError ("cannot identify image file " ++ image_path))

/-- The body of `generate_with_image` on one attempt: `Image.open` runs
inside the decorated function, then the multimodal request is sent and the
response validated. -/
def generate_with_image_body (fs : String → Option PILImage)
    (provider : ProviderBehaviour) (self : GenAITextProvider)
    (prompt image_path : String) (thinking_budget : Int)
    (attempt : Nat) : Except GenError String × List String :=
  match pilImageOpen fs image_path with
  | .error e => (.error e, [])
  | .ok img =>
    match provider (generate_with_image_request self img prompt thinking_budget) attempt with
    | .error e => (.error e, [])
    | .ok response => _validate_response response

/-- `generate_with_image`, decorated identically to `generate_text`. -/
def generate_with_image (callCfg importCfg : ProcessConfig)
    (fs : String → Option PILImage) (provider : ProviderBehaviour)
    (self : GenAITextProvider) (prompt image_path : String)
    (thinking_budget : Int) : RetryTrace GenError String :=
  genaiRetry (importCfg.GENAI_MAX_RETRIES + 1) callCfg
    (generate_with_image_body fs provider self prompt image_path thinking_budget)

/-! Migration 012, `upgrade()`:
`op.add_column('projects', sa.Column('export_allow_partial', sa.Boolean(),
nullable=True, server_default='0'))` followed by
`UPDATE projects SET export_allow_partial = false
 WHERE export_allow_partial IS NULL`.
A table is a list of rows; the migration only touches the new column, so a
row is a payload (the other columns) paired with the new column's optional
boolean.  Whether `ADD COLUMN ... DEFAULT '0'` fills pre-existing rows with
the server default or leaves them NULL is engine-dependent, captured by
`defaultApplied`. -/

def add_export_allow_partial_column (defaultApplied : Bool) (rows : List α) :
    List (α × Option Bool) :=
  rows.map (fun r => (r, if defaultApplied then some false else none))

/-- The backfill `UPDATE ... SET export_allow_partial = false WHERE
export_allow_partial IS NULL`. -/
def backfill_export_allow_partial_column (table : List (α × Option Bool)) :
    List (α × Option Bool) :=
  table.map (fun rc =>
    match rc.2 with
    | none => (rc.1, some false)
    | some b => (rc.1, some b))

/-- `upgrade()` of migration 012 on a projects table of pre-existing rows. -/
def migration012_upgrade (defaultApplied : Bool) (rows : List α) :
    List (α × Option Bool) :=
  backfill_export_allow_partial_column (add_export_allow_partial_column defaultApplied rows)

/-! Helper lemmas about the retry loop. -/

section RetryLemmas

variable {ε α : Type} (lr lr' : Nat → ε → String) (wf : Nat → Nat)
variable (body : Nat → Except ε α × List String)

/-- A body that succeeds on its first attempt ends the loop at that attempt,
with no waits and only the body's own logs. -/
lemma retryGo_ok {a r : Nat} {v : α} (h : (body a).1 = .ok v) :
    retryGo lr wf body a r =
      { result := .ok v, attempts := a, waits := [], logs := (body a).2 } := by
  cases r <;> simp [retryGo, h]

/-- A body that fails on every attempt exhausts all retries: starting at
attempt `a` with `r` retries allowed, the loop stops after attempt `a + r`
and re-raises that attempt's exception unchanged. -/
lemma retryGo_error_all (e : Nat → ε) (h : ∀ n, (body n).1 = .error (e n)) :
    ∀ r a, (retryGo lr wf body a r).attempts = a + r ∧
      (retryGo lr wf body a r).result = .error (e (a + r)) := by
  intro r
  induction r with
  | zero => intro a; simp [retryGo, h a]
  | succ r ih =>
    intro a
    obtain ⟨h1, h2⟩ := ih (a + 1)
    have hidx : a + 1 + r = a + (r + 1) := by omega
    rw [hidx] at h1 h2
    simp [retryGo, h a, h1, h2]

/-- Outcome, attempt count and waits do not depend on the logging
callback. -/
lemma retryGo_log_indep :
    ∀ r a, (retryGo lr wf body a r).result = (retryGo lr' wf body a r).result ∧
      (retryGo lr wf body a r).attempts = (retryGo lr' wf body a r).attempts ∧
      (retryGo lr wf body a r).waits = (retryGo lr' wf body a r).waits := by
  intro r
  induction r with
  | zero => intro a; rcases hb : (body a).1 with e | v <;> simp [retryGo, hb]
  | succ r ih =>
    intro a
    rcases hb : (body a).1 with e | v <;> simp [retryGo, hb]
    obtain ⟨h1, h2, h3⟩ := ih (a + 1)
    exact ⟨h1, h2, h3⟩

/-- Every trace's waits are non-decreasing, are values of the wait function
at attempt numbers ≥ the starting attempt, and the first wait (when any) is
the wait for the starting attempt. -/
lemma retryGo_waits (hwf : ∀ n, wf n ≤ wf (n + 1)) :
    ∀ r a, List.Chain' (· ≤ ·) (retryGo lr wf body a r).waits ∧
      (∀ w ∈ (retryGo lr wf body a r).waits, ∃ i, a ≤ i ∧ w = wf i) ∧
      ((retryGo lr wf body a r).waits = [] ∨
        ∃ t, (retryGo lr wf body a r).waits = wf a :: t) := by
  intro r
  induction r with
  | zero =>
    intro a
    rcases hb : (body a).1 with e | v <;> simp [retryGo, hb]
  | succ r ih =>
    intro a
    rcases hb : (body a).1 with e | v
    · obtain ⟨ihc, ihm, ihh⟩ := ih (a + 1)
      simp only [retryGo, hb]
      refine ⟨?_, ?_, Or.inr ⟨(retryGo lr wf body (a + 1) r).waits, rfl⟩⟩
      · rcases ihh with h0 | ⟨tl, htl⟩
        · rw [h0]; simp
        · rw [htl]; rw [htl] at ihc
          exact List.chain'_cons.mpr ⟨hwf a, ihc⟩
      · intro w hw
        rcases List.mem_cons.mp hw with h | h
        · exact ⟨a, le_refl a, h⟩
        · obtain ⟨i, hi, hwi⟩ := ihm w h
          exact ⟨i, by omega, hwi⟩
    · simp [retryGo, hb]

end RetryLemmas

/-! Arithmetic facts about the configured backoff. -/

lemma genaiWait_eq (n : Nat) : genaiWait n = min 10 (max 2 (2 ^ n)) := by
  have h1 : 1 ≤ 2 ^ n := Nat.one_le_pow n 2 (by omega)
  simp only [genaiWait, wait_exponential, one_mul]
  omega

lemma genaiWait_le_succ (n : Nat) : genaiWait n ≤ genaiWait (n + 1) := by
  have h : 2 ^ n ≤ 2 ^ (n + 1) := Nat.pow_le_pow_right (by omega) (by omega)
  simp only [genaiWait, wait_exponential, one_mul]
  omega

lemma genaiWait_bounds (n : Nat) : 2 ≤ genaiWait n ∧ genaiWait n ≤ 10 := by
  have h1 : 1 ≤ 2 ^ n := Nat.one_le_pow n 2 (by omega)
  simp only [genaiWait, wait_exponential, one_mul]
  omega

/-! Concrete fixtures used by witnesses and counterexamples. -/

def cfgA : ProcessConfig := { GENAI_MAX_RETRIES := 2, GENAI_TIMEOUT := 30 }

def cfgSmall : ProcessConfig := { GENAI_MAX_RETRIES := 0, GENAI_TIMEOUT := 30 }

def cfgBig : ProcessConfig := { GENAI_MAX_RETRIES := 5, GENAI_TIMEOUT := 30 }

def provA : GenAITextProvider :=
  GenAITextProvider.init cfgA (some "key") none "gemini-3-flash-preview" false none none

def imgA : PILImage := { path := "slide.png" }

/-- A filesystem on which every path decodes to an image. -/
def fsA : String → Option PILImage := fun p => some { path := p }

/-- A filesystem on which no path decodes (every payload undecodable). -/
def fsNone : String → Option PILImage := fun _ => none

/-- A provider failing on every attempt with the same network error. -/
def providerBoom : ProviderBehaviour := fun _ _ => .error (.providerError "boom")

/-- A response with no usable text but diagnostic candidate metadata. -/
def respEmpty : GenAIResponse :=
  { text := none
    candidates := [{ finish_reason := some "SAFETY", safety_ratings := some "BLOCKED" }] }

def providerEmpty : ProviderBehaviour := fun _ _ => .ok respEmpty

/-- A response whose text is the empty string (present, not None). -/
def respBlank : GenAIResponse := { text := some "", candidates := [] }

def providerBlank : ProviderBehaviour := fun _ _ => .ok respBlank

/-! Claims. -/

/-- Claim C1, counterexample: constructing the provider with vertexai mode
and an empty project_id (and, in API-key mode, with an empty api_key) does
not fail — `__init__` raises no ConfigError and a client is produced with
the empty credential forwarded to the external SDK constructor. -/
theorem C1_counterexample :
    (GenAITextProvider.init cfgA none none "gemini-3-flash-preview" true
        (some "") none).client.project = some "" ∧
    (GenAITextProvider.init cfgA (some "") none "gemini-3-flash-preview" false
        none none).client.api_key = some "" := by
  exact ⟨rfl, rfl⟩

/-- Claim C1, amended: `__init__` performs no credential validation and the
repository defines no ConfigError; for every configuration — including an
empty project_id in vertexai mode and an empty api_key in API-key mode —
construction returns a provider that forwards the given credentials
unchanged to the external `genai.Client` constructor, whose own validation
(and environment fallback) is outside this repository. -/
theorem C1_init_no_validation (cfg : ProcessConfig)
    (api_base : Option String) (model : String) (location : Option String) :
    (GenAITextProvider.init cfg none api_base model true (some "") location).client.project
        = some "" ∧
    (GenAITextProvider.init cfg none api_base model true (some "") location).model
        = model ∧
    (GenAITextProvider.init cfg (some "") api_base model false none location).client.api_key
        = some "" ∧
    (GenAITextProvider.init cfg (some "") api_base model false none location).model
        = model := by
  exact ⟨rfl, rfl, rfl, rfl⟩

/-- Claim C2, counterexample: with an undecodable image payload and
max_retries = 2 at import, `generate_with_image` does not raise on the first
attempt with zero retries — the decode failure happens inside the retried
body and tenacity retries every exception, so 3 attempts are made before the
image-load error is re-raised. -/
theorem C2_counterexample :
    (generate_with_image cfgA cfgA fsNone providerBoom provA "describe" "bad.png" 0).attempts
        = 3 ∧
    (generate_with_image cfgA cfgA fsNone providerBoom provA "describe" "bad.png" 0).result
        = .error (.imageLoadError "cannot identify image file bad.png") := by
  exact ⟨rfl, rfl⟩

/-- Claim C2, amended: an undecodable image payload makes
`generate_with_image` raise the image-load error, but only after the full
retry policy runs: `Image.open` executes inside the decorated body, every
attempt fails the same way, and after max_retries + 1 attempts the
image-load error is re-raised unchanged. -/
theorem C2_image_error_retried (callCfg importCfg : ProcessConfig)
    (fs : String → Option PILImage) (provider : ProviderBehaviour)
    (self : GenAITextProvider) (prompt image_path : String) (tb : Int)
    (hfs : fs image_path = none) :
    (generate_with_image callCfg importCfg fs provider self prompt image_path tb).attempts
        = importCfg.GENAI_MAX_RETRIES + 1 ∧
    (generate_with_image callCfg importCfg fs provider self prompt image_path tb).result
        = .error (.imageLoadError ("cannot identify image file " ++ image_path)) := by
  have hbody : ∀ n,
      (generate_with_image_body fs provider self prompt image_path tb n).1 =
        Except.error (GenError.imageLoadError ("cannot identify image file " ++ image_path)) := by
    intro n
    simp [generate_with_image_body, pilImageOpen, hfs]
  have hall := retryGo_error_all (fun k e => _log_retry callCfg k e) genaiWait
    (generate_with_image_body fs provider self prompt image_path tb)
    (fun _ => GenError.imageLoadError ("cannot identify image file " ++ image_path))
    hbody (importCfg.GENAI_MAX_RETRIES + 1 - 1) 1
  have hidx : 1 + (importCfg.GENAI_MAX_RETRIES + 1 - 1) =
      importCfg.GENAI_MAX_RETRIES + 1 := by omega
  obtain ⟨h1, h2⟩ := hall
  rw [hidx] at h1
  exact ⟨h1, h2⟩

/-- Claim C2 witness for the amended theorem, at a concrete undecodable
payload and max_retries = 2. -/
theorem C2_image_error_retried_witness :
    fsNone "bad.png" = none ∧
    (generate_with_image cfgA cfgA fsNone providerBoom provA "describe" "bad.png" 0).attempts
        = 3 := by
  refine ⟨rfl, ?_⟩
  exact (C2_image_error_retried cfgA cfgA fsNone providerBoom provA "describe" "bad.png" 0 rfl).1

/-- Claim C3: with a provider failing on every attempt, each generation
operation makes exactly max_retries + 1 attempts (the import-time
configured value counts retries after the first attempt) and then, by
`reraise=True`, re-raises the last attempt's error unchanged, not wrapped. -/
theorem C3_retry_exhaustion (callCfg importCfg : ProcessConfig)
    (provider : ProviderBehaviour) (fs : String → Option PILImage)
    (self : GenAITextProvider) (prompt image_path : String) (tb : Int)
    (errs : Nat → GenError) (img : PILImage)
    (hp : ∀ req n, provider req n = .error (errs n))
    (hfs : fs image_path = some img) :
    (generate_text callCfg importCfg provider self prompt tb).attempts
        = importCfg.GENAI_MAX_RETRIES + 1 ∧
    (generate_text callCfg importCfg provider self prompt tb).result
        = .error (errs (importCfg.GENAI_MAX_RETRIES + 1)) ∧
    (generate_with_image callCfg importCfg fs provider self prompt image_path tb).attempts
        = importCfg.GENAI_MAX_RETRIES + 1 ∧
    (generate_with_image callCfg importCfg fs provider self prompt image_path tb).result
        = .error (errs (importCfg.GENAI_MAX_RETRIES + 1)) := by
  have hidx : 1 + (importCfg.GENAI_MAX_RETRIES + 1 - 1) =
      importCfg.GENAI_MAX_RETRIES + 1 := by omega
  have hbodyT : ∀ n, (generate_text_body provider self prompt tb n).1 =
      Except.error (errs n) := by
    intro n; simp [generate_text_body, hp]
  have hbodyI : ∀ n,
      (generate_with_image_body fs provider self prompt image_path tb n).1 =
        Except.error (errs n) := by
    intro n; simp [generate_with_image_body, pilImageOpen, hfs, hp]
  have hallT := retryGo_error_all (fun k e => _log_retry callCfg k e) genaiWait
    (generate_text_body provider self prompt tb) errs hbodyT
    (importCfg.GENAI_MAX_RETRIES + 1 - 1) 1
  have hallI := retryGo_error_all (fun k e => _log_retry callCfg k e) genaiWait
    (generate_with_image_body fs provider self prompt image_path tb) errs hbodyI
    (importCfg.GENAI_MAX_RETRIES + 1 - 1) 1
  rw [hidx] at hallT hallI
  exact ⟨hallT.1, hallT.2, hallI.1, hallI.2⟩

/-- Claim C3 witness: a provider failing every attempt with "boom" and
max_retries = 2 gives 3 attempts and re-raises "boom" from both
operations. -/
theorem C3_retry_exhaustion_witness :
    (∀ req n, providerBoom req n = .error (GenError.providerError "boom")) ∧
    fsA "slide.png" = some imgA ∧
    (generate_text cfgA cfgA providerBoom provA "p" 0).attempts = 3 ∧
    (generate_text cfgA cfgA providerBoom provA "p" 0).result
        = .error (.providerError "boom") := by
  have h := C3_retry_exhaustion cfgA cfgA providerBoom fsA provA "p" "slide.png" 0
    (fun _ => GenError.providerError "boom") imgA (fun _ _ => rfl) rfl
  exact ⟨fun _ _ => rfl, rfl, h.1, h.2.1⟩

/-- Claim C4: with thinking_budget = 0 the outbound request of either
operation carries no generation config at all (the reasoning-budget
parameter is omitted, not sent as zero); with thinking_budget = N > 0 it
carries a thinking_config whose budget equals N. -/
theorem C4_thinking_budget_param (self : GenAITextProvider)
    (prompt : String) (img : PILImage) (N : Int) (hN : 0 < N) :
    (generate_text_request self prompt 0).config = none ∧
    (generate_with_image_request self img prompt 0).config = none ∧
    (generate_text_request self prompt N).config
        = some { thinking_config := some { thinking_budget := N } } ∧
    (generate_with_image_request self img prompt N).config
        = some { thinking_config := some { thinking_budget := N } } := by
  refine ⟨rfl, rfl, ?_, ?_⟩ <;>
    simp [generate_text_request, generate_with_image_request, buildConfigParams, hN]

/-- Claim C4 witness at N = 7. -/
theorem C4_thinking_budget_param_witness :
    (0 : Int) < 7 ∧
    (generate_text_request provA "p" 0).config = none ∧
    (generate_text_request provA "p" 7).config
        = some { thinking_config := some { thinking_budget := 7 } } := by
  have h := C4_thinking_budget_param provA "p" imgA 7 (by decide)
  exact ⟨by decide, h.1, h.2.2.1⟩

/-- Claim C5: a response carrying no usable text (text is None) makes
`_validate_response` raise the ValueError that feeds the retry policy —
with a persistently empty provider, `generate_text` runs the full
max_retries + 1 attempts and surfaces that error — and before signaling the
failure it logs the first candidate's finish reason and safety ratings
whenever they are present. -/
theorem C5_empty_payload_retryable (callCfg importCfg : ProcessConfig)
    (provider : ProviderBehaviour) (self : GenAITextProvider)
    (prompt : String) (tb : Int) (r : GenAIResponse)
    (hr : r.text = none) (hp : ∀ req n, provider req n = .ok r) :
    (_validate_response r).1 =
      .error (.valueError "AI model returned empty response (response.text is None)") ∧
    (∀ c rest fr, r.candidates = c :: rest → c.finish_reason = some fr →
      ("Response text is None, finish_reason: " ++ fr) ∈ (_validate_response r).2) ∧
    (∀ c rest sr, r.candidates = c :: rest → c.safety_ratings = some sr →
      ("Safety ratings: " ++ sr) ∈ (_validate_response r).2) ∧
    (generate_text callCfg importCfg provider self prompt tb).attempts
        = importCfg.GENAI_MAX_RETRIES + 1 ∧
    (generate_text callCfg importCfg provider self prompt tb).result
        = .error (.valueError "AI model returned empty response (response.text is None)") := by
  have hbody : ∀ n, (generate_text_body provider self prompt tb n).1 =
      Except.error (GenError.valueError
        "AI model returned empty response (response.text is None)") := by
    intro n
    simp [generate_text_body, hp, _validate_response, hr]
  have hall := retryGo_error_all (fun k e => _log_retry callCfg k e) genaiWait
    (generate_text_body provider self prompt tb)
    (fun _ => GenError.valueError
      "AI model returned empty response (response.text is None)")
    hbody (importCfg.GENAI_MAX_RETRIES + 1 - 1) 1
  have hidx : 1 + (importCfg.GENAI_MAX_RETRIES + 1 - 1) =
      importCfg.GENAI_MAX_RETRIES + 1 := by omega
  obtain ⟨h1, h2⟩ := hall
  rw [hidx] at h1
  refine ⟨by simp [_validate_response, hr], ?_, ?_, h1, h2⟩
  · intro c rest fr hc hfr
    simp [_validate_response, hr, hc, hfr]
  · intro c rest sr hc hsr
    simp [_validate_response, hr, hc, hsr]

/-- Claim C5 witness: a persistently empty response with finish reason
SAFETY and ratings BLOCKED, max_retries = 2. -/
theorem C5_empty_payload_retryable_witness :
    respEmpty.text = none ∧
    (∀ req n, providerEmpty req n = .ok respEmpty) ∧
    ("Response text is None, finish_reason: SAFETY" ∈ (_validate_response respEmpty).2) ∧
    ("Safety ratings: BLOCKED" ∈ (_validate_response respEmpty).2) ∧
    (generate_text cfgA cfgA providerEmpty provA "p" 0).attempts = 3 := by
  have h := C5_empty_payload_retryable cfgA cfgA providerEmpty provA "p" 0
    respEmpty rfl (fun _ _ => rfl)
  refine ⟨rfl, fun _ _ => rfl, ?_, ?_, h.2.2.2.1⟩
  · exact h.2.1 _ [] "SAFETY" rfl rfl
  · exact h.2.2.1 _ [] "BLOCKED" rfl rfl

/-- Claim C6: the wait slept before each retry is
min(10, max(2, 2 ^ attempt_index)) seconds — every wait of either
operation's trace lies in [2, 10], equals that clamped exponential at some
attempt index ≥ 1, and the waits are non-decreasing. -/
theorem C6_backoff_shape (callCfg importCfg : ProcessConfig)
    (provider : ProviderBehaviour) (fs : String → Option PILImage)
    (self : GenAITextProvider) (prompt image_path : String) (tb : Int)
    (n : Nat) (hn : 1 ≤ n) :
    genaiWait n = min 10 (max 2 (2 ^ n)) ∧
    (2 ≤ genaiWait n ∧ genaiWait n ≤ 10) ∧
    genaiWait n ≤ genaiWait (n + 1) ∧
    (∀ w ∈ (generate_text callCfg importCfg provider self prompt tb).waits,
      2 ≤ w ∧ w ≤ 10 ∧ ∃ i, 1 ≤ i ∧ w = min 10 (max 2 (2 ^ i))) ∧
    List.Chain' (· ≤ ·)
      (generate_text callCfg importCfg provider self prompt tb).waits ∧
    (∀ w ∈ (generate_with_image callCfg importCfg fs provider self prompt image_path tb).waits,
      2 ≤ w ∧ w ≤ 10 ∧ ∃ i, 1 ≤ i ∧ w = min 10 (max 2 (2 ^ i))) ∧
    List.Chain' (· ≤ ·)
      (generate_with_image callCfg importCfg fs provider self prompt image_path tb).waits := by
  obtain ⟨hcT, hmT, -⟩ := retryGo_waits (fun k e => _log_retry callCfg k e) genaiWait
    (generate_text_body provider self prompt tb) genaiWait_le_succ
    (importCfg.GENAI_MAX_RETRIES + 1 - 1) 1
  obtain ⟨hcI, hmI, -⟩ := retryGo_waits (fun k e => _log_retry callCfg k e) genaiWait
    (generate_with_image_body fs provider self prompt image_path tb) genaiWait_le_succ
    (importCfg.GENAI_MAX_RETRIES + 1 - 1) 1
  refine ⟨genaiWait_eq n, genaiWait_bounds n, genaiWait_le_succ n, ?_, hcT, ?_, hcI⟩
  · intro w hw
    obtain ⟨i, hi, hwi⟩ := hmT w hw
    subst hwi
    exact ⟨(genaiWait_bounds i).1, (genaiWait_bounds i).2, i, hi, genaiWait_eq i⟩
  · intro w hw
    obtain ⟨i, hi, hwi⟩ := hmI w hw
    subst hwi
    exact ⟨(genaiWait_bounds i).1, (genaiWait_bounds i).2, i, hi, genaiWait_eq i⟩

/-- Claim C6 witness at attempt index 1, on a concrete failing run. -/
theorem C6_backoff_shape_witness :
    1 ≤ 1 ∧
    genaiWait 1 = 2 ∧
    List.Chain' (· ≤ ·)
      (generate_text cfgA cfgA providerBoom provA "p" 0).waits := by
  have h := C6_backoff_shape cfgA cfgA providerBoom fsA provA "p" "slide.png" 0 1
    (le_refl 1)
  exact ⟨le_refl 1, h.1, h.2.2.2.2.1⟩

/-- Claim C7, counterexample: the decorator argument was evaluated at
module import with max_retries = 0 (cfgSmall); the process configuration is
then changed to max_retries = 5 (cfgBig) before the first generation call,
yet the call still makes exactly 1 attempt, not 6 — a runtime change made
after module load but before the first call does not affect retry
behavior. -/
theorem C7_counterexample :
    (generate_text cfgBig cfgSmall providerBoom provA "p" 0).attempts = 1 ∧
    cfgBig.GENAI_MAX_RETRIES + 1 = 6 := by
  exact ⟨rfl, rfl⟩

/-- Claim C7, amended: max_retries is read once, when the decorator
arguments are evaluated at module import; configuration changes after that
— whether before the first call or mid-retry-sequence — never alter the
outcome, attempt count or waits (the call-time snapshot only feeds the
retry-log text), and the request timeout is read at provider-construction
time from the then-current configuration. -/
theorem C7_config_read_at_import (callCfg callCfg' importCfg cfgInit : ProcessConfig)
    (provider : ProviderBehaviour) (self : GenAITextProvider)
    (prompt : String) (tb : Int)
    (api_key api_base : Option String) (model : String)
    (vertexai : Bool) (project_id location : Option String) :
    (generate_text callCfg importCfg provider self prompt tb).result
        = (generate_text callCfg' importCfg provider self prompt tb).result ∧
    (generate_text callCfg importCfg provider self prompt tb).attempts
        = (generate_text callCfg' importCfg provider self prompt tb).attempts ∧
    (generate_text callCfg importCfg provider self prompt tb).waits
        = (generate_text callCfg' importCfg provider self prompt tb).waits ∧
    (GenAITextProvider.init cfgInit api_key api_base model vertexai
        project_id location).client.http_options.timeout = timeout_ms cfgInit := by
  obtain ⟨h1, h2, h3⟩ := retryGo_log_indep (fun k e => _log_retry callCfg k e)
    (fun k e => _log_retry callCfg' k e) genaiWait
    (generate_text_body provider self prompt tb)
    (importCfg.GENAI_MAX_RETRIES + 1 - 1) 1
  refine ⟨h1, h2, h3, ?_⟩
  cases vertexai
  · cases hb : pyStrTruthy api_base <;> simp [GenAITextProvider.init, hb]
  · simp [GenAITextProvider.init]

/-- Claim C8: `_validate_response` treats only a None text as failure; a
response whose text is the empty string is a success, so both operations
return "" on the first attempt, with no retry, no wait and no diagnostic
logging. -/
theorem C8_empty_string_is_success (callCfg importCfg : ProcessConfig)
    (provider : ProviderBehaviour) (fs : String → Option PILImage)
    (self : GenAITextProvider) (prompt image_path : String)
    (tb : Int) (r : GenAIResponse) (img : PILImage)
    (hr : r.text = some "")
    (hp : ∀ req n, provider req n = .ok r)
    (hfs : fs image_path = some img) :
    _validate_response r = (.ok "", []) ∧
    generate_text callCfg importCfg provider self prompt tb
        = { result := .ok "", attempts := 1, waits := [], logs := [] } ∧
    generate_with_image callCfg importCfg fs provider self prompt image_path tb
        = { result := .ok "", attempts := 1, waits := [], logs := [] } := by
  have hval : _validate_response r = (.ok "", []) := by
    simp [_validate_response, hr]
  have hbodyT : ∀ n, generate_text_body provider self prompt tb n = (.ok "", []) := by
    intro n; simp [generate_text_body, hp, hval]
  have hbodyI : ∀ n,
      generate_with_image_body fs provider self prompt image_path tb n = (.ok "", []) := by
    intro n; simp [generate_with_image_body, pilImageOpen, hfs, hp, hval]
  have h1T : (generate_text_body provider self prompt tb 1).1 = Except.ok "" := by
    rw [hbodyT]
  have h1I : (generate_with_image_body fs provider self prompt image_path tb 1).1
      = Except.ok "" := by
    rw [hbodyI]
  refine ⟨hval, ?_, ?_⟩
  · show genaiRetry (importCfg.GENAI_MAX_RETRIES + 1) callCfg _ = _
    unfold genaiRetry
    rw [retryGo_ok _ genaiWait _ h1T, hbodyT]
  · show genaiRetry (importCfg.GENAI_MAX_RETRIES + 1) callCfg _ = _
    unfold genaiRetry
    rw [retryGo_ok _ genaiWait _ h1I, hbodyI]

/-- Claim C8 witness: a provider always answering with empty-string text. -/
theorem C8_empty_string_is_success_witness :
    respBlank.text = some "" ∧
    (∀ req n, providerBlank req n = .ok respBlank) ∧
    generate_text cfgA cfgA providerBlank provA "p" 0
        = { result := .ok "", attempts := 1, waits := [], logs := [] } := by
  have h := C8_empty_string_is_success cfgA cfgA providerBlank fsA provA "p"
    "slide.png" 0 respBlank imgA rfl (fun _ _ => rfl) rfl
  exact ⟨rfl, fun _ _ => rfl, h.2.1⟩

/-- Claim C9: every thinking_budget ≤ 0, negative values included, takes the
same branch as 0: the generation config is omitted entirely from the
outbound request of both operations, and request construction is total (no
error is raised on account of the value). -/
theorem C9_nonpositive_budget_omitted (self : GenAITextProvider)
    (prompt : String) (img : PILImage) (tb : Int) (h : tb ≤ 0) :
    (generate_text_request self prompt tb).config = none ∧
    (generate_with_image_request self img prompt tb).config = none ∧
    generate_text_request self prompt tb = generate_text_request self prompt 0 ∧
    generate_with_image_request self img prompt tb
        = generate_with_image_request self img prompt 0 := by
  have hnot : ¬ (tb > 0) := by omega
  simp [generate_text_request, generate_with_image_request, buildConfigParams, hnot]

/-- Claim C9 witness at thinking_budget = -5. -/
theorem C9_nonpositive_budget_omitted_witness :
    (-5 : Int) ≤ 0 ∧
    (generate_text_request provA "p" (-5)).config = none ∧
    generate_text_request provA "p" (-5) = generate_text_request provA "p" 0 := by
  have h := C9_nonpositive_budget_omitted provA "p" imgA (-5) (by decide)
  exact ⟨by decide, h.1, h.2.2.1⟩

/-- Claim C10: after migration 012's upgrade, every pre-existing projects
row has export_allow_partial = false and none is left NULL — whether or not
the engine filled existing rows when the column was added with server
default '0', the backfill UPDATE sets false wherever the value is NULL. -/
theorem C10_upgrade_no_null {α : Type} (defaultApplied : Bool)
    (rows : List α) (p : α × Option Bool)
    (hp : p ∈ migration012_upgrade defaultApplied rows) :
    p.2 = some false := by
  simp only [migration012_upgrade, backfill_export_allow_partial_column,
    add_export_allow_partial_column, List.map_map, List.mem_map,
    Function.comp] at hp
  obtain ⟨r, hr, hfp⟩ := hp
  subst hfp
  cases defaultApplied <;> rfl

/-- Claim C10 witness on a one-row table with the server default not applied
by the engine. -/
theorem C10_upgrade_no_null_witness :
    ((3 : Nat), (some false : Option Bool)) ∈ migration012_upgrade false [3] ∧
    ((3 : Nat), (some false : Option Bool)).2 = some false := by
  refine ⟨by decide, ?_⟩
  exact C10_upgrade_no_null false [3] (3, some false) (by decide)

end BananaSlides
